import Mathlib

/-!
Verification development for the flow-monitoring system
(`flow_monitor_gui.py` and `src/core/cross_platform_flow_monitor.py`).

The Python code is shallowly embedded: machine floats are modelled as
exact rationals (`ℚ`), the bounded `deque(maxlen=N)` buffers as lists
with an explicit eviction step, the parser as a total function into
`Option Reading`, and the two serial reading loops as step functions
over explicit loop states.  Text is handled at the `List Char` level so
that every definition evaluates by kernel reduction; rational arithmetic
is phrased through `mkRat`-based helpers (`qSub`, `qDivPow10`,
`qMulPow10`, `divBy1000`) that are proved equal to the ordinary field
operations below.
-/

/-! ### Exact-arithmetic helpers for ℚ -/

/-- `a - b` computed as a single `mkRat`; see `qSub_eq`. -/
def qSub (a b : ℚ) : ℚ := mkRat (a.num * b.den - b.num * a.den) (a.den * b.den)

/-- `a / 10 ^ p` computed as a single `mkRat`; see `qDivPow10_eq`. -/
def qDivPow10 (a : ℚ) (p : ℕ) : ℚ := mkRat a.num (a.den * 10 ^ p)

/-- `a * 10 ^ p` computed as a single `mkRat`; see `qMulPow10_eq`. -/
def qMulPow10 (a : ℚ) (p : ℕ) : ℚ := mkRat (a.num * 10 ^ p) a.den

/-- `a / 1000` computed as a single `mkRat`; see `divBy1000_eq`. -/
def divBy1000 (a : ℚ) : ℚ := mkRat a.num (a.den * 1000)

theorem qSub_eq (a b : ℚ) : qSub a b = a - b := by
  have ha : ((a.den : ℚ)) ≠ 0 := Nat.cast_ne_zero.mpr a.den_nz
  have hb : ((b.den : ℚ)) ≠ 0 := Nat.cast_ne_zero.mpr b.den_nz
  rw [qSub, Rat.mkRat_eq_div]
  push_cast
  conv_rhs => rw [← Rat.num_div_den a, ← Rat.num_div_den b]
  rw [div_sub_div _ _ ha hb]
  ring_nf

theorem qDivPow10_eq (a : ℚ) (p : ℕ) : qDivPow10 a p = a / 10 ^ p := by
  rw [qDivPow10, Rat.mkRat_eq_div]
  push_cast
  conv_rhs => rw [← Rat.num_div_den a]
  rw [div_div]

theorem qMulPow10_eq (a : ℚ) (p : ℕ) : qMulPow10 a p = a * 10 ^ p := by
  have ha : ((a.den : ℚ)) ≠ 0 := Nat.cast_ne_zero.mpr a.den_nz
  rw [qMulPow10, Rat.mkRat_eq_div]
  push_cast
  conv_rhs => rw [← Rat.num_div_den a]
  rw [div_mul_eq_mul_div]

theorem divBy1000_eq (a : ℚ) : divBy1000 a = a / 1000 := by
  rw [divBy1000, Rat.mkRat_eq_div]
  push_cast
  conv_rhs => rw [← Rat.num_div_den a]
  rw [div_div]

/-! ### Configuration constants (flow_monitor_gui.py lines 36-46, src/config.py) -/

def DEFAULT_SENSOR_STATUS : String := "NO DATA"

def DATA_TIMEOUT_SECONDS : ℚ := 5

def RECONNECT_AFTER_SECONDS : ℚ := 15

def MAX_POINTS : ℕ := 500

/-- `FLOW_MAX_REASONABLE = 50.0` (both in flow_monitor_gui.py line 45 and
src/config.py line 26): the configured maximum plausible flow rate. -/
def FLOW_MAX_REASONABLE : ℚ := 50

/-! ### Character-level string primitives

Python strings are modelled as `List Char`; `pySplitComma` is
`str.split(",")`, `pyStrip` is `str.strip()`, `startsWithL` is
`str.startswith`. -/

def pySplitComma : List Char → List (List Char)
  | [] => [[]]
  | c :: rest =>
    if c = ',' then [] :: pySplitComma rest
    else
      match pySplitComma rest with
      | [] => [[c]]
      | f :: fs => (c :: f) :: fs

def pyStrip (cs : List Char) : List Char :=
  ((cs.dropWhile Char.isWhitespace).reverse.dropWhile Char.isWhitespace).reverse

def startsWithL : List Char → List Char → Bool
  | [], _ => true
  | _ :: _, [] => false
  | p :: ps, c :: cs => p = c && startsWithL ps cs

/-! ### Model of Python numeric string conversion

`pyFloat` models `float(s)` on the finite decimal literal forms the wire
protocol uses: optional surrounding whitespace, an optional sign, a decimal
mantissa with at least one digit, and an optional decimal exponent.
(Special Python forms such as `inf`, `nan` and digit-group underscores are
outside the device protocol and are not modelled.)  `pyInt` models `int(s)`
the same way: optional whitespace, optional sign, one or more digits. -/

def digitVal (c : Char) : ℕ := c.toNat - 48

def natOfDigits (cs : List Char) : ℕ :=
  cs.foldl (fun n c => 10 * n + digitVal c) 0

def spanDigits (cs : List Char) : List Char × List Char :=
  (cs.takeWhile Char.isDigit, cs.dropWhile Char.isDigit)

def parseSignCh : List Char → Bool × List Char
  | '-' :: rest => (true, rest)
  | '+' :: rest => (false, rest)
  | cs => (false, cs)

/-- Exponent part after the `e`/`E`: optional sign then one or more digits,
consuming the whole remainder.  Returns (negated?, magnitude). -/
def parseExpPart (cs : List Char) : Option (Bool × ℕ) :=
  let p := parseSignCh cs
  let d := spanDigits p.2
  if d.1 = [] ∨ d.2 ≠ [] then none
  else some (p.1, natOfDigits d.1)

/-- Mantissa: `digits`, `digits.digits`, `digits.` or `.digits`
(at least one digit overall); returns (scaled integer value, decimal
places) and the unconsumed rest. -/
def parseMantissa (cs : List Char) : Option ((ℕ × ℕ) × List Char) :=
  let ip := spanDigits cs
  match ip.2 with
  | '.' :: rest2 =>
      let fp := spanDigits rest2
      if ip.1 = [] ∧ fp.1 = [] then none
      else some ((natOfDigits ip.1 * 10 ^ fp.1.length + natOfDigits fp.1, fp.1.length), fp.2)
  | _ => if ip.1 = [] then none else some ((natOfDigits ip.1, 0), ip.2)

def applyExp (v : ℚ) (e : Bool × ℕ) : ℚ :=
  if e.1 then qDivPow10 v e.2 else qMulPow10 v e.2

def pyFloat (cs : List Char) : Option ℚ :=
  let t := pyStrip cs
  let sp := parseSignCh t
  match parseMantissa sp.2 with
  | none => none
  | some (m, rest) =>
    let v := qDivPow10 ((m.1 : ℕ) : ℚ) m.2
    let signed := if sp.1 then -v else v
    match rest with
    | [] => some signed
    | 'e' :: r2 => (parseExpPart r2).map (applyExp signed)
    | 'E' :: r2 => (parseExpPart r2).map (applyExp signed)
    | _ => none

def pyInt (cs : List Char) : Option ℤ :=
  let t := pyStrip cs
  let sp := parseSignCh t
  let d := spanDigits sp.2
  if d.1 = [] ∨ d.2 ≠ [] then none
  else some (if sp.1 then -(natOfDigits d.1 : ℤ) else (natOfDigits d.1 : ℤ))

/-! ### The Reading data model (spec §3; fields built in `_parse_data_line`) -/

structure Reading where
  timestamp_seconds : ℚ
  flow_rate : ℚ
  cumulative_volume : ℚ
  status : String
  current_pulses : ℤ
  total_pulses : ℤ
  deriving DecidableEq, Repr

/-- `parts[3].strip() or DEFAULT_SENSOR_STATUS` (flow_monitor_gui.py line 523). -/
def pyStatus (cs : List Char) : String :=
  if pyStrip cs = [] then DEFAULT_SENSOR_STATUS else String.mk (pyStrip cs)

/-- The pure parsing core of `FlowMonitor._parse_data_line`
(flow_monitor_gui.py lines 512-567): split on commas, require at least 4
fields, convert fields 0-2 with `float`, strip field 3 (defaulting when
empty), convert fields 4/5 with `int` when present (0 when absent), and
reject a negative flow rate.  Every conversion failure is caught by the
surrounding `except (ValueError, IndexError)` and yields a rejection, so
the embedding is a total function into `Option Reading`. -/
def parse_fields (parts : List (List Char)) : Option Reading :=
  if parts.length < 4 then none
  else
    match pyFloat (parts.getD 0 []) with
    | none => none
    | some timestamp_ms =>
    match pyFloat (parts.getD 1 []) with
    | none => none
    | some flow_rate =>
    match pyFloat (parts.getD 2 []) with
    | none => none
    | some total_volume =>
    match (if 4 < parts.length then pyInt (parts.getD 4 []) else some 0) with
    | none => none
    | some current_pulses =>
    match (if 5 < parts.length then pyInt (parts.getD 5 []) else some 0) with
    | none => none
    | some total_pulses =>
    if flow_rate < 0 then none
    else some ⟨divBy1000 timestamp_ms, flow_rate, total_volume,
               pyStatus (parts.getD 3 []), current_pulses, total_pulses⟩

def parse_data_line (line : String) : Option Reading :=
  parse_fields (pySplitComma line.data)

/-- The warning condition `if flow_rate > 20.0` at flow_monitor_gui.py
line 539: high flows above this hard-coded literal are logged ("flagged")
but not rejected. -/
def flaggedHighFlow (flow_rate : ℚ) : Bool :=
  decide (flow_rate > 20)

example : parse_data_line "1000,2.5,0.75,OK,3,10" =
    some ⟨mkRat 1000 1000, mkRat 25 10, mkRat 75 100, "OK", 3, 10⟩ := by decide

example : parse_data_line "abc,1.0,0.0,OK" = none := by decide

example : parse_data_line "1000,-2.0,0.0,OK" = none := by decide

example : parse_data_line "1000,0.0,0.0,  " =
    some ⟨mkRat 1000 1000, 0, 0, "NO DATA", 0, 0⟩ := by decide

example : parse_data_line "1e3,2.5e-1,1E2,OK" =
    some ⟨1, mkRat 25 100, 100, "OK", 0, 0⟩ := by decide

/-! ### The rolling buffer: `deque(maxlen=N)` (flow_monitor_gui.py lines 273-276)

`pushMax N buf x` is one `deque.append`: when the deque already holds `N`
elements, appending drops elements from the left so that exactly `N`
remain. -/

def pushMax (N : ℕ) (buf : List α) (x : α) : List α :=
  if buf.length < N then buf ++ [x] else (buf ++ [x]).drop (buf.length + 1 - N)

def pushAll (N : ℕ) (buf : List α) (xs : List α) : List α :=
  xs.foldl (pushMax N) buf

/-! ### FlowMonitor mutable state (flow_monitor_gui.py lines 264-307)

Only the fields touched by the data path are modelled; GUI handles and
thread objects are omitted.  `time.time()` is passed in explicitly as
`now`. -/

structure MonState where
  timestamps : List ℚ
  flow_rates : List ℚ
  total_volumes : List ℚ
  status_history : List String
  is_recording : Bool
  total_data_points : ℕ
  max_flow_rate : ℚ
  last_data_timestamp : Option ℚ
  sensor_status : String
  latest_flow_rate : ℚ
  latest_total_volume : ℚ
  deriving DecidableEq, Repr

/-- `FlowMonitor._reset_data_internal` (lines 309-319): clear the four
deques, then append one synthetic zero reading. -/
def reset_data_internal (st : MonState) : MonState :=
  { st with
    timestamps := [0]
    flow_rates := [0]
    total_volumes := [0]
    status_history := [DEFAULT_SENSOR_STATUS] }

/-- `FlowMonitor.reset_data` (lines 716-728): reset the deques and zero
the statistics and session-health fields. -/
def reset_data (st : MonState) : MonState :=
  { reset_data_internal st with
    total_data_points := 0
    max_flow_rate := 0
    last_data_timestamp := none
    sensor_status := DEFAULT_SENSOR_STATUS
    latest_flow_rate := 0
    latest_total_volume := 0 }

/-- The data-path fields of `FlowMonitor.__init__` (lines 264-307): empty
deques followed by `_reset_data_internal`; recording starts on; statistics
zeroed, no data seen yet. -/
def initState : MonState :=
  reset_data_internal
    { timestamps := []
      flow_rates := []
      total_volumes := []
      status_history := []
      is_recording := true
      total_data_points := 0
      max_flow_rate := 0
      last_data_timestamp := none
      sensor_status := DEFAULT_SENSOR_STATUS
      latest_flow_rate := 0
      latest_total_volume := 0 }

/-- The state mutation performed under `self.thread_lock` at
flow_monitor_gui.py lines 548-564 once a line was accepted: the four
session-health fields are always updated; the deques and statistics only
while `is_recording`. -/
def apply_reading (st : MonState) (now : ℚ) (r : Reading) : MonState :=
  let st1 := { st with
    last_data_timestamp := some now
    sensor_status := r.status
    latest_flow_rate := r.flow_rate
    latest_total_volume := r.cumulative_volume }
  if st.is_recording then
    { st1 with
      timestamps := pushMax MAX_POINTS st.timestamps r.timestamp_seconds
      flow_rates := pushMax MAX_POINTS st.flow_rates r.flow_rate
      total_volumes := pushMax MAX_POINTS st.total_volumes r.cumulative_volume
      status_history := pushMax MAX_POINTS st.status_history r.status
      total_data_points := st.total_data_points + 1
      max_flow_rate := max st.max_flow_rate r.flow_rate }
  else st1

/-- `FlowMonitor._parse_data_line` as a state transformer: a rejected
line leaves the state untouched (all rejection paths in the Python code
`return` before the lock-guarded mutation). -/
def process_data_line (st : MonState) (now : ℚ) (line : String) : MonState :=
  match parse_data_line line with
  | none => st
  | some r => apply_reading st now r

/-- The line filter of `FlowMonitor._read_serial_data` (lines 500-501):
non-empty, contains a comma, and does not start with one of the known
non-data prefixes `"==="`, `"Time"`, `"CSV"`. -/
def is_data_candidate (line : String) : Bool :=
  !line.data.isEmpty && line.data.contains ',' &&
    !(startsWithL "===".data line.data || startsWithL "Time".data line.data ||
      startsWithL "CSV".data line.data)

/-- One accepted-line step of `_read_serial_data`: filtered lines are
handed to `_parse_data_line`, everything else is dropped. -/
def handle_line (st : MonState) (now : ℚ) (line : String) : MonState :=
  if is_data_candidate line then process_data_line st now line else st

example : initState.timestamps = [0] ∧ initState.status_history = ["NO DATA"] := by decide

example : (handle_line initState 7 "===HEADER,x,y,z").timestamps = [0] := by decide

example : (handle_line initState 7 "1000,2,3,OK").timestamps = [0, 1] := by decide

/-! ### Connection status and auto-reconnect (flow_monitor_gui.py lines 569-593, 688-702) -/

inductive DataStatus where
  | receiving
  | stale
  | waiting
  | noConnection
  deriving DecidableEq, Repr

/-- Python truthiness of an optional float
(`if self.last_data_timestamp:`): `None` and `0.0` are falsy. -/
def truthyOpt (x : Option ℚ) : Bool :=
  match x with
  | none => false
  | some q => decide (q ≠ 0)

/-- The `data_status` computed by `FlowMonitor._compute_status_summary`
(lines 569-593): with a last-data timestamp, the link counts as stale as
soon as `now - last > DATA_TIMEOUT_SECONDS`; with none it is still
waiting; a disconnected monitor overrides both. -/
def compute_data_status (isConnected : Bool) (lastData : Option ℚ) (now : ℚ) : DataStatus :=
  let ds :=
    match lastData with
    | some t => if DATA_TIMEOUT_SECONDS < qSub now t then DataStatus.stale else .receiving
    | none => DataStatus.waiting
  if isConnected then ds else .noConnection

/-- The guard of `FlowMonitor._handle_auto_reconnect` (lines 688-702): a
reconnect attempt is made iff the monitor is connected, the last-data
timestamp is truthy and older than `RECONNECT_AFTER_SECONDS`, and the
previous attempt is falsy or more than 5 seconds ago. -/
def should_attempt_reconnect (isConnected : Bool) (lastData lastAttempt : Option ℚ)
    (now : ℚ) : Bool :=
  if isConnected && truthyOpt lastData &&
      decide (RECONNECT_AFTER_SECONDS < qSub now (lastData.getD 0)) then
    !truthyOpt lastAttempt || decide ((5 : ℚ) < qSub now (lastAttempt.getD 0))
  else false

/-- `_handle_auto_reconnect` as a state transformer on the attempt
timestamp: when the guard fires, `last_reconnect_attempt` is set to `now`
and a teardown/reopen is attempted (second component). -/
def handle_auto_reconnect (isConnected : Bool) (lastData lastAttempt : Option ℚ)
    (now : ℚ) : Option ℚ × Bool :=
  if should_attempt_reconnect isConnected lastData lastAttempt now then (some now, true)
  else (lastAttempt, false)

example : compute_data_status true (some 1) 7 = .stale := by decide

example : compute_data_status true (some 1) 5 = .receiving := by decide

example : should_attempt_reconnect true (some 1) none 17 = true := by decide

example : should_attempt_reconnect true (some 1) none 16 = false := by decide

/-! ### CSV export (`FlowMonitor.save_data`, lines 746-784) -/

/-- Fixed-point rendering of a scaled natural: `n` is the value times
`10 ^ prec`. -/
def natFixed (prec : ℕ) (n : ℕ) : String :=
  let ip := n / 10 ^ prec
  let fp := n % 10 ^ prec
  let fpStr := Nat.repr fp
  if prec = 0 then Nat.repr ip
  else Nat.repr ip ++ "." ++ String.mk (List.replicate (prec - fpStr.length) '0') ++ fpStr

/-- `f"{q:.prec f}"`: fixed-point formatting of a rational with `prec`
decimals, rounding ties away from the midpoint the way a binary float's
decimal rendering does (half-to-even on the exact rational). -/
def fmtFixed (prec : ℕ) (q : ℚ) : String :=
  let scaled := qMulPow10 q prec
  let fl := scaled.floor
  let frac := qSub scaled (fl : ℚ)
  let n : ℤ :=
    if mkRat 1 2 < frac then fl + 1
    else if frac < mkRat 1 2 then fl
    else if fl % 2 = 0 then fl else fl + 1
  if n < 0 then "-" ++ natFixed prec n.natAbs else natFixed prec n.natAbs

/-- The header literal written at flow_monitor_gui.py line 773. -/
def csvHeader : String := "Time(s),FlowRate(L/min),TotalVolume(L),Status"

/-- One data row of the export loop (line 774-777): time relative to the
first sample with 3 decimals, flow rate with 3 decimals, cumulative
volume with 4 decimals, then the status (falling back to the live sensor
status when the status deque is shorter than the others). -/
def csvRow (t0 : ℚ) (t flow volume : ℚ) (status : String) : String :=
  fmtFixed 3 (qSub t t0) ++ "," ++ fmtFixed 3 flow ++ "," ++ fmtFixed 4 volume ++ "," ++ status

def csvRows (times flows volumes : List ℚ) (statuses : List String)
    (sensorStatus : String) : List String :=
  match times with
  | [] => []
  | t0 :: _ =>
    (List.range times.length).map fun i =>
      csvRow t0 (times.getD i 0) (flows.getD i 0) (volumes.getD i 0)
        (if i < statuses.length then statuses.getD i "" else sensorStatus)

/-- `FlowMonitor.save_data` (lines 746-784) stripped of the GUI dialog:
`None` models the "No data to save!" early return (no file written);
otherwise the written file is the header line followed by one row per
buffered sample. -/
def save_data (times flows volumes : List ℚ) (statuses : List String)
    (sensorStatus : String) : Option (List String) :=
  if times.length ≤ 1 then none
  else some (csvHeader :: csvRows times flows volumes statuses sensorStatus)

example : save_data [0] [0] [0] ["NO DATA"] "NO DATA" = none := by decide

example : save_data [0, 1] [0, mkRat 25 10] [0, mkRat 1 2] ["NO DATA", "OK"] "OK" =
    some ["Time(s),FlowRate(L/min),TotalVolume(L),Status",
          "0.000,0.000,0.0000,NO DATA", "1.000,2.500,0.5000,OK"] := by decide

/-! ### The serial reading loops

One loop iteration is driven by a `SerialEvent`: `lineRead l` is a
successful `readline()` returning `l` (possibly empty on timeout),
`serialError` a `serial.SerialException`, `otherError` any other
exception. -/

inductive SerialEvent where
  | lineRead (line : String)
  | serialError
  | otherError
  deriving DecidableEq, Repr

/-- Loop-control state of `CrossPlatformFlowMonitor.read_serial_data`
(cross_platform_flow_monitor.py lines 446-494).  `reconnectAttempts`
counts device reopen attempts made by the loop itself — the loop body
contains none, it only signals `handle_connection_lost`.  The data-path
effect of an accepted line is `process_data_line` and is orthogonal to
the loop control modelled here. -/
structure CPLoopState where
  consecutiveErrors : ℕ
  running : Bool
  signaledLost : Bool
  reconnectAttempts : ℕ
  deriving DecidableEq, Repr

def MAX_CONSECUTIVE_ERRORS : ℕ := 5

def cpInit : CPLoopState := ⟨0, true, false, 0⟩

/-- One iteration of `CrossPlatformFlowMonitor.read_serial_data`: a
non-empty line resets the error counter; an empty read leaves it alone;
any exception increments it, and on reaching `MAX_CONSECUTIVE_ERRORS`
the loop schedules `handle_connection_lost` and breaks. -/
def cpStep (s : CPLoopState) (e : SerialEvent) : CPLoopState :=
  if !s.running then s
  else
    match e with
    | .lineRead l => if l.data.isEmpty then s else { s with consecutiveErrors := 0 }
    | .serialError | .otherError =>
      let n := s.consecutiveErrors + 1
      if MAX_CONSECUTIVE_ERRORS ≤ n then
        { s with consecutiveErrors := n, running := false, signaledLost := true }
      else { s with consecutiveErrors := n }

def cpRun (es : List SerialEvent) : CPLoopState := es.foldl cpStep cpInit

/-- Loop-control state of `FlowMonitor._read_serial_data`
(flow_monitor_gui.py lines 494-510). -/
structure GuiLoopState where
  isConnected : Bool
  running : Bool
  deriving DecidableEq, Repr

/-- One iteration of `FlowMonitor._read_serial_data`: a
`serial.SerialException` immediately clears `is_connected` and breaks the
loop; any other exception is logged and the loop continues. -/
def guiStep (s : GuiLoopState) (e : SerialEvent) : GuiLoopState :=
  if !s.running then s
  else
    match e with
    | .lineRead _ => s
    | .serialError => { isConnected := false, running := false }
    | .otherError => s

/-- Errors-since-last-successful-read: the value `consecutive_errors`
tracks while the loop runs. -/
def streakStep (n : ℕ) (e : SerialEvent) : ℕ :=
  match e with
  | .lineRead l => if l.data.isEmpty then n else 0
  | .serialError | .otherError => n + 1

/-- Pair fold computing (max error streak over all prefixes, current
error streak). -/
def streaksAux (p : ℕ × ℕ) (es : List SerialEvent) : ℕ × ℕ :=
  es.foldl (fun p e => let t := streakStep p.2 e; (max p.1 t, t)) p

def maxErrStreak (es : List SerialEvent) : ℕ := (streaksAux (0, 0) es).1

def errStreak (es : List SerialEvent) : ℕ := (streaksAux (0, 0) es).2

example : cpRun [.serialError, .serialError, .serialError, .serialError] =
    ⟨4, true, false, 0⟩ := by decide

example : cpRun [.serialError, .serialError, .serialError, .serialError, .otherError] =
    ⟨5, false, true, 0⟩ := by decide

example : cpRun [.serialError, .serialError, .lineRead "1,2,3,OK", .serialError,
    .serialError, .serialError, .serialError] = ⟨4, true, false, 0⟩ := by decide

/-! ### Helper lemmas -/

theorem parse_fields_accepted (parts : List (List Char)) (t f v : ℚ) (s : String) (p4 p5 : ℤ)
    (hlen : 4 ≤ parts.length)
    (h0 : pyFloat (parts.getD 0 []) = some t)
    (h1 : pyFloat (parts.getD 1 []) = some f)
    (h2 : pyFloat (parts.getD 2 []) = some v)
    (hs : pyStatus (parts.getD 3 []) = s)
    (h4 : (if 4 < parts.length then pyInt (parts.getD 4 []) else some 0) = some p4)
    (h5 : (if 5 < parts.length then pyInt (parts.getD 5 []) else some 0) = some p5)
    (hf : 0 ≤ f) :
    parse_fields parts = some ⟨divBy1000 t, f, v, s, p4, p5⟩ := by
  unfold parse_fields
  rw [if_neg (by omega), h0, h1, h2, h4, h5]
  dsimp only
  rw [hs, if_neg (not_lt.mpr hf)]

theorem parse_fields_rejected (parts : List (List Char))
    (hrej : parts.length < 4 ∨ pyFloat (parts.getD 0 []) = none ∨
            pyFloat (parts.getD 1 []) = none ∨ pyFloat (parts.getD 2 []) = none ∨
            (4 < parts.length ∧ pyInt (parts.getD 4 []) = none) ∨
            (5 < parts.length ∧ pyInt (parts.getD 5 []) = none) ∨
            (∃ f, pyFloat (parts.getD 1 []) = some f ∧ f < 0)) :
    parse_fields parts = none := by
  unfold parse_fields
  by_cases hl4 : parts.length < 4
  · rw [if_pos hl4]
  rw [if_neg hl4]
  rcases hrej with h | h | h | h | ⟨hl, h⟩ | ⟨hl, h⟩ | ⟨f, hf, hneg⟩
  · exact absurd h hl4
  · rw [h]
  · cases hx0 : pyFloat (parts.getD 0 []) with
    | none => rfl
    | some t => rw [h]
  · cases hx0 : pyFloat (parts.getD 0 []) with
    | none => rfl
    | some t =>
      cases hx1 : pyFloat (parts.getD 1 []) with
      | none => rfl
      | some f => rw [h]
  · cases hx0 : pyFloat (parts.getD 0 []) with
    | none => rfl
    | some t =>
      cases hx1 : pyFloat (parts.getD 1 []) with
      | none => rfl
      | some f =>
        cases hx2 : pyFloat (parts.getD 2 []) with
        | none => rfl
        | some v => rw [if_pos hl, h]
  · cases hx0 : pyFloat (parts.getD 0 []) with
    | none => rfl
    | some t =>
      cases hx1 : pyFloat (parts.getD 1 []) with
      | none => rfl
      | some f =>
        cases hx2 : pyFloat (parts.getD 2 []) with
        | none => rfl
        | some v =>
          cases hx4 : (if 4 < parts.length then pyInt (parts.getD 4 []) else some 0) with
          | none => rfl
          | some p4 => rw [if_pos hl, h]
  · cases hx0 : pyFloat (parts.getD 0 []) with
    | none => rfl
    | some t =>
      rw [hf]
      cases hx2 : pyFloat (parts.getD 2 []) with
      | none => rfl
      | some v =>
        cases hx4 : (if 4 < parts.length then pyInt (parts.getD 4 []) else some 0) with
        | none => rfl
        | some p4 =>
          cases hx5 : (if 5 < parts.length then pyInt (parts.getD 5 []) else some 0) with
          | none => rfl
          | some p5 =>
            dsimp only
            rw [if_pos hneg]

theorem pushMax_eq_drop {α : Type} (N : ℕ) (buf : List α) (x : α) (_h : buf.length ≤ N) :
    pushMax N buf x = (buf ++ [x]).drop (buf.length + 1 - N) := by
  unfold pushMax
  split
  · rw [Nat.sub_eq_zero_of_le (by omega), List.drop_zero]
  · rfl

theorem length_pushMax {α : Type} (N : ℕ) (buf : List α) (x : α) (h : buf.length ≤ N) :
    (pushMax N buf x).length = min N (buf.length + 1) := by
  rw [pushMax_eq_drop N buf x h, List.length_drop, List.length_append]
  simp only [List.length_cons, List.length_nil]
  omega

theorem pushAll_eq_drop {α : Type} (N : ℕ) (xs : List α) : ∀ (buf : List α), buf.length ≤ N →
    pushAll N buf xs = (buf ++ xs).drop (buf.length + xs.length - N) := by
  induction xs with
  | nil =>
    intro buf h
    rw [pushAll, List.foldl_nil, List.append_nil, List.length_nil,
      Nat.add_zero, Nat.sub_eq_zero_of_le h, List.drop_zero]
  | cons x xs ih =>
    intro buf h
    have hstep : pushAll N buf (x :: xs) = pushAll N (pushMax N buf x) xs := rfl
    have hlen : (pushMax N buf x).length = min N (buf.length + 1) := length_pushMax N buf x h
    have hle : (pushMax N buf x).length ≤ N := by omega
    have hd : buf.length + 1 - N ≤ (buf ++ [x]).length := by
      simp only [List.length_append, List.length_cons, List.length_nil]
      omega
    rw [hstep, ih (pushMax N buf x) hle, pushMax_eq_drop N buf x h,
      ← List.drop_append_of_le_length hd, List.drop_drop]
    rw [show (buf ++ [x]) ++ xs = buf ++ x :: xs by
      rw [List.append_assoc, List.singleton_append]]
    congr 1
    rw [List.length_drop]
    simp only [List.length_append, List.length_cons, List.length_nil]
    omega

theorem length_pushAll {α : Type} (N : ℕ) (buf : List α) (xs : List α) (h : buf.length ≤ N) :
    (pushAll N buf xs).length = min N (buf.length + xs.length) := by
  rw [pushAll_eq_drop N xs buf h, List.length_drop, List.length_append]
  omega

/-- Invariant tying the cross-platform loop state to the running and
maximal errors-since-last-read streaks. -/
def cpInv (s : CPLoopState) (p : ℕ × ℕ) : Prop :=
  p.2 ≤ p.1 ∧ s.reconnectAttempts = 0 ∧
  ((p.1 < MAX_CONSECUTIVE_ERRORS ∧ s = ⟨p.2, true, false, 0⟩) ∨
   (MAX_CONSECUTIVE_ERRORS ≤ p.1 ∧ s.running = false ∧ s.signaledLost = true))

theorem cpStep_run_lineRead (c : ℕ) (l : String) :
    cpStep ⟨c, true, false, 0⟩ (.lineRead l) =
      if l.data.isEmpty then ⟨c, true, false, 0⟩ else ⟨0, true, false, 0⟩ := rfl

theorem cpStep_run_err (c : ℕ) (e : SerialEvent)
    (he : e = .serialError ∨ e = .otherError) :
    cpStep ⟨c, true, false, 0⟩ e =
      if MAX_CONSECUTIVE_ERRORS ≤ c + 1 then ⟨c + 1, false, true, 0⟩
      else ⟨c + 1, true, false, 0⟩ := by
  rcases he with rfl | rfl <;> rfl

theorem cpStep_notRunning (s : CPLoopState) (e : SerialEvent) (h : s.running = false) :
    cpStep s e = s := by
  unfold cpStep
  rw [h]
  rfl

theorem streakStep_lineRead (n : ℕ) (l : String) :
    streakStep n (.lineRead l) = if l.data.isEmpty then n else 0 := rfl

theorem streakStep_err (n : ℕ) (e : SerialEvent)
    (he : e = .serialError ∨ e = .otherError) :
    streakStep n e = n + 1 := by
  rcases he with rfl | rfl <;> rfl

theorem cpStep_inv (s : CPLoopState) (p : ℕ × ℕ) (e : SerialEvent) (h : cpInv s p) :
    cpInv (cpStep s e) (max p.1 (streakStep p.2 e), streakStep p.2 e) := by
  have hM : MAX_CONSECUTIVE_ERRORS = 5 := rfl
  obtain ⟨hpt, hrc, ⟨hm, hs⟩ | ⟨hm, hrunf, hsig⟩⟩ := h
  · subst hs
    cases e with
    | lineRead l =>
      rw [cpStep_run_lineRead, streakStep_lineRead]
      by_cases hl : l.data.isEmpty
      · rw [if_pos hl, if_pos hl]
        exact ⟨le_max_right _ _, rfl, Or.inl ⟨by omega, rfl⟩⟩
      · rw [if_neg hl, if_neg hl]
        exact ⟨le_max_right _ _, rfl, Or.inl ⟨by omega, rfl⟩⟩
    | serialError =>
      rw [cpStep_run_err p.2 _ (Or.inl rfl), streakStep_err p.2 _ (Or.inl rfl)]
      by_cases hth : MAX_CONSECUTIVE_ERRORS ≤ p.2 + 1
      · rw [if_pos hth]
        exact ⟨le_max_right _ _, rfl, Or.inr ⟨by omega, rfl, rfl⟩⟩
      · rw [if_neg hth]
        exact ⟨le_max_right _ _, rfl, Or.inl ⟨by omega, rfl⟩⟩
    | otherError =>
      rw [cpStep_run_err p.2 _ (Or.inr rfl), streakStep_err p.2 _ (Or.inr rfl)]
      by_cases hth : MAX_CONSECUTIVE_ERRORS ≤ p.2 + 1
      · rw [if_pos hth]
        exact ⟨le_max_right _ _, rfl, Or.inr ⟨by omega, rfl, rfl⟩⟩
      · rw [if_neg hth]
        exact ⟨le_max_right _ _, rfl, Or.inl ⟨by omega, rfl⟩⟩
  · have hstay : cpStep s e = s := cpStep_notRunning s e hrunf
    rw [hstay]
    exact ⟨le_max_right _ _, hrc, Or.inr ⟨le_max_of_le_left hm, hrunf, hsig⟩⟩

theorem cpFold_inv (es : List SerialEvent) : ∀ (s : CPLoopState) (p : ℕ × ℕ),
    cpInv s p → cpInv (es.foldl cpStep s) (streaksAux p es) := by
  induction es with
  | nil => intro s p h; exact h
  | cons e es ih =>
    intro s p h
    exact ih (cpStep s e) _ (cpStep_inv s p e h)

/-! ### The claims -/

/-- C1: every input line that passes the non-data-prefix filter, splits
into at least 4 comma-separated fields whose fields 0-2 parse as floats
with a non-negative field 1 and whose fields 4/5 parse as integers when
present, is parsed into a Reading whose timestamp is field 0 divided by
1000, whose flow rate and cumulative volume are fields 1 and 2, whose
status is field 3 stripped (default sentinel when empty), and whose
pulse counts are fields 4/5 when present and 0 when absent. -/
theorem C1_parse_valid_line (line : String) (parts : List (List Char))
    (t f v : ℚ) (s : String) (p4 p5 : ℤ)
    (hcand : is_data_candidate line = true)
    (hparts : pySplitComma line.data = parts)
    (hlen : 4 ≤ parts.length)
    (h0 : pyFloat (parts.getD 0 []) = some t)
    (h1 : pyFloat (parts.getD 1 []) = some f)
    (hf : 0 ≤ f)
    (h2 : pyFloat (parts.getD 2 []) = some v)
    (hs : pyStatus (parts.getD 3 []) = s)
    (h4 : (if 4 < parts.length then pyInt (parts.getD 4 []) else some 0) = some p4)
    (h5 : (if 5 < parts.length then pyInt (parts.getD 5 []) else some 0) = some p5) :
    parse_data_line line = some ⟨t / 1000, f, v, s, p4, p5⟩ ∧
    ∀ (st : MonState) (now : ℚ), handle_line st now line =
      apply_reading st now ⟨t / 1000, f, v, s, p4, p5⟩ := by
  have hp : parse_data_line line = some ⟨divBy1000 t, f, v, s, p4, p5⟩ := by
    unfold parse_data_line
    rw [hparts]
    exact parse_fields_accepted parts t f v s p4 p5 hlen h0 h1 h2 hs h4 h5 hf
  rw [divBy1000_eq] at hp
  refine ⟨hp, fun st now => ?_⟩
  unfold handle_line
  rw [if_pos hcand]
  unfold process_data_line
  rw [hp]

theorem C1_witness :
    parse_data_line "1000,2,3,OK,4,5" =
      some ⟨(1000 : ℚ) / 1000, 2, 3, "OK", 4, 5⟩ ∧
    ∀ (st : MonState) (now : ℚ), handle_line st now "1000,2,3,OK,4,5" =
      apply_reading st now ⟨(1000 : ℚ) / 1000, 2, 3, "OK", 4, 5⟩ :=
  C1_parse_valid_line "1000,2,3,OK,4,5"
    [['1', '0', '0', '0'], ['2'], ['3'], ['O', 'K'], ['4'], ['5']]
    1000 2 3 "OK" 4 5 (by decide) (by decide) (by decide) (by decide)
    (by decide) (by decide) (by decide) (by decide) (by decide) (by decide)

/-- C2: every line with fewer than 4 fields, a non-numeric field 0, 1 or
2, a malformed integer in a present field 4 or 5, or a negative field 1
is rejected: the parser (a total function — the Python conversion errors
are caught by the surrounding handler, so no exception escapes) returns
`none` and the state, in particular all four rolling buffers, is exactly
what it was before the line. -/
theorem C2_parse_rejects (line : String) (parts : List (List Char))
    (st : MonState) (now : ℚ)
    (hparts : pySplitComma line.data = parts)
    (hrej : parts.length < 4 ∨ pyFloat (parts.getD 0 []) = none ∨
            pyFloat (parts.getD 1 []) = none ∨ pyFloat (parts.getD 2 []) = none ∨
            (4 < parts.length ∧ pyInt (parts.getD 4 []) = none) ∨
            (5 < parts.length ∧ pyInt (parts.getD 5 []) = none) ∨
            (∃ f, pyFloat (parts.getD 1 []) = some f ∧ f < 0)) :
    parse_data_line line = none ∧ process_data_line st now line = st ∧
    (process_data_line st now line).timestamps = st.timestamps ∧
    (process_data_line st now line).flow_rates = st.flow_rates ∧
    (process_data_line st now line).total_volumes = st.total_volumes ∧
    (process_data_line st now line).status_history = st.status_history := by
  have hn : parse_data_line line = none := by
    unfold parse_data_line
    rw [hparts]
    exact parse_fields_rejected parts hrej
  have hpres : process_data_line st now line = st := by
    unfold process_data_line
    rw [hn]
  exact ⟨hn, hpres, by rw [hpres], by rw [hpres], by rw [hpres], by rw [hpres]⟩

theorem C2_witness :
    parse_data_line "abc,1,2,OK" = none ∧
    process_data_line initState 5 "abc,1,2,OK" = initState ∧
    (process_data_line initState 5 "abc,1,2,OK").timestamps = initState.timestamps ∧
    (process_data_line initState 5 "abc,1,2,OK").flow_rates = initState.flow_rates ∧
    (process_data_line initState 5 "abc,1,2,OK").total_volumes = initState.total_volumes ∧
    (process_data_line initState 5 "abc,1,2,OK").status_history = initState.status_history :=
  C2_parse_rejects "abc,1,2,OK" [['a', 'b', 'c'], ['1'], ['2'], ['O', 'K']] initState 5
    (by decide) (Or.inr (Or.inl (by decide)))

/-- C3: for a buffer of capacity `N` (the code uses `MAX_POINTS = 500`
for all four deques), pushing `N + k` readings with `k > 0` into a
buffer that starts within capacity leaves exactly the last `N` pushed
readings, in arrival order, and the length never exceeds `N` at any
intermediate point. -/
theorem C3_buffer_capacity {α : Type} (N k : ℕ) (buf xs : List α)
    (hk : 0 < k) (hb : buf.length ≤ N) (hx : xs.length = N + k) :
    pushAll N buf xs = xs.drop k ∧ (pushAll N buf xs).length = N ∧
    (∀ i, (pushAll N buf (xs.take i)).length ≤ N) ∧ MAX_POINTS = 500 := by
  have heq : pushAll N buf xs = xs.drop k := by
    rw [pushAll_eq_drop N xs buf hb, hx,
      show buf.length + (N + k) - N = buf.length + k by omega, List.drop_append]
  refine ⟨heq, ?_, ?_, rfl⟩
  · rw [heq, List.length_drop, hx]
    omega
  · intro i
    rw [pushAll_eq_drop N (xs.take i) buf hb, List.length_drop, List.length_append]
    omega

theorem C3_witness :
    pushAll 3 ([] : List ℕ) [1, 2, 3, 4, 5] = [1, 2, 3, 4, 5].drop 2 ∧
    (pushAll 3 ([] : List ℕ) [1, 2, 3, 4, 5]).length = 3 ∧
    (∀ i, (pushAll 3 ([] : List ℕ) ([1, 2, 3, 4, 5].take i)).length ≤ 3) ∧
    MAX_POINTS = 500 :=
  C3_buffer_capacity 3 2 [] [1, 2, 3, 4, 5] (by decide) (by decide) (by decide)

/-- C9: the parser range-checks only the flow rate: whenever fields 0-2
parse as floats with a non-negative field 1 (and fields 4/5 parse when
present), the line is accepted whatever the sign or magnitude of the
timestamp and the cumulative volume — the hypotheses place no constraint
on `t` or `v`, so in particular negative values are stored unchanged. -/
theorem C9_only_flow_range_checked (line : String) (parts : List (List Char))
    (t f v : ℚ) (s : String) (p4 p5 : ℤ)
    (hparts : pySplitComma line.data = parts)
    (hlen : 4 ≤ parts.length)
    (h0 : pyFloat (parts.getD 0 []) = some t)
    (h1 : pyFloat (parts.getD 1 []) = some f)
    (hf : 0 ≤ f)
    (h2 : pyFloat (parts.getD 2 []) = some v)
    (hs : pyStatus (parts.getD 3 []) = s)
    (h4 : (if 4 < parts.length then pyInt (parts.getD 4 []) else some 0) = some p4)
    (h5 : (if 5 < parts.length then pyInt (parts.getD 5 []) else some 0) = some p5) :
    ∃ r : Reading, parse_data_line line = some r ∧
      r.timestamp_seconds = t / 1000 ∧ r.flow_rate = f ∧ r.cumulative_volume = v := by
  have hp : parse_data_line line = some ⟨divBy1000 t, f, v, s, p4, p5⟩ := by
    unfold parse_data_line
    rw [hparts]
    exact parse_fields_accepted parts t f v s p4 p5 hlen h0 h1 h2 hs h4 h5 hf
  exact ⟨⟨divBy1000 t, f, v, s, p4, p5⟩, hp, divBy1000_eq t, rfl, rfl⟩

theorem C9_witness :
    ∃ r : Reading, parse_data_line "-1000,1,-3.5,OK" = some r ∧
      r.timestamp_seconds = (-1000 : ℚ) / 1000 ∧ r.flow_rate = 1 ∧
      r.cumulative_volume = mkRat (-35) 10 :=
  C9_only_flow_range_checked "-1000,1,-3.5,OK"
    [['-', '1', '0', '0', '0'], ['1'], ['-', '3', '.', '5'], ['O', 'K']]
    (-1000) 1 (mkRat (-35) 10) "OK" 0 0 (by decide) (by decide) (by decide)
    (by decide) (by decide) (by decide) (by decide) (by decide) (by decide)

/-- C10: while recording is paused, an accepted line changes exactly the
four session-health fields — `last_data_timestamp`, `sensor_status`,
`latest_flow_rate`, `latest_total_volume` — and leaves the four buffers
and the data-point and peak statistics untouched. -/
theorem C10_paused_updates_health_only (st : MonState) (now : ℚ) (line : String)
    (r : Reading) (hrec : st.is_recording = false)
    (hp : parse_data_line line = some r) :
    process_data_line st now line =
      { st with
        last_data_timestamp := some now
        sensor_status := r.status
        latest_flow_rate := r.flow_rate
        latest_total_volume := r.cumulative_volume } ∧
    (process_data_line st now line).timestamps = st.timestamps ∧
    (process_data_line st now line).flow_rates = st.flow_rates ∧
    (process_data_line st now line).total_volumes = st.total_volumes ∧
    (process_data_line st now line).status_history = st.status_history ∧
    (process_data_line st now line).total_data_points = st.total_data_points ∧
    (process_data_line st now line).max_flow_rate = st.max_flow_rate ∧
    (process_data_line st now line).last_data_timestamp = some now ∧
    (process_data_line st now line).sensor_status = r.status ∧
    (process_data_line st now line).latest_flow_rate = r.flow_rate ∧
    (process_data_line st now line).latest_total_volume = r.cumulative_volume := by
  have hmain : process_data_line st now line =
      { st with
        last_data_timestamp := some now
        sensor_status := r.status
        latest_flow_rate := r.flow_rate
        latest_total_volume := r.cumulative_volume } := by
    unfold process_data_line
    rw [hp]
    unfold apply_reading
    dsimp only
    rw [if_neg (by simp [hrec])]
  refine ⟨hmain, ?_, ?_, ?_, ?_, ?_, ?_, ?_, ?_, ?_, ?_⟩ <;> rw [hmain]

theorem C10_witness :
    process_data_line { initState with is_recording := false } 7 "1000,2,3,OK" =
      { { initState with is_recording := false } with
        last_data_timestamp := some 7
        sensor_status := "OK"
        latest_flow_rate := 2
        latest_total_volume := 3 } ∧
    (process_data_line { initState with is_recording := false } 7 "1000,2,3,OK").timestamps =
      ({ initState with is_recording := false } : MonState).timestamps ∧
    (process_data_line { initState with is_recording := false } 7 "1000,2,3,OK").flow_rates =
      ({ initState with is_recording := false } : MonState).flow_rates ∧
    (process_data_line { initState with is_recording := false } 7 "1000,2,3,OK").total_volumes =
      ({ initState with is_recording := false } : MonState).total_volumes ∧
    (process_data_line { initState with is_recording := false } 7 "1000,2,3,OK").status_history =
      ({ initState with is_recording := false } : MonState).status_history ∧
    (process_data_line { initState with is_recording := false } 7 "1000,2,3,OK").total_data_points =
      ({ initState with is_recording := false } : MonState).total_data_points ∧
    (process_data_line { initState with is_recording := false } 7 "1000,2,3,OK").max_flow_rate =
      ({ initState with is_recording := false } : MonState).max_flow_rate ∧
    (process_data_line { initState with is_recording := false } 7 "1000,2,3,OK").last_data_timestamp =
      some 7 ∧
    (process_data_line { initState with is_recording := false } 7 "1000,2,3,OK").sensor_status =
      Reading.status ⟨1, 2, 3, "OK", 0, 0⟩ ∧
    (process_data_line { initState with is_recording := false } 7 "1000,2,3,OK").latest_flow_rate =
      Reading.flow_rate ⟨1, 2, 3, "OK", 0, 0⟩ ∧
    (process_data_line { initState with is_recording := false } 7 "1000,2,3,OK").latest_total_volume =
      Reading.cumulative_volume ⟨1, 2, 3, "OK", 0, 0⟩ :=
  C10_paused_updates_health_only { initState with is_recording := false } 7 "1000,2,3,OK"
    ⟨1, 2, 3, "OK", 0, 0⟩ (by decide) (by decide)

/-- C4 as stated is false at the boundary: with the last reading at
time 1 and the clock at 16 the gap has reached exactly 15 seconds, yet
`_handle_auto_reconnect` (which requires the gap to *exceed*
`RECONNECT_AFTER_SECONDS`) makes no reconnect attempt — the status is
still only Stale. -/
theorem C4_counterexample :
    qSub 16 1 = RECONNECT_AFTER_SECONDS ∧
    compute_data_status true (some 1) 16 = .stale ∧
    should_attempt_reconnect true (some 1) none 16 = false :=
  ⟨by decide, by decide, by decide⟩

/-- C4 (amended): from Connected with a gap strictly between 5 s and
15 s the status is Stale and no reconnect attempt is made; once the gap
strictly exceeds 15 s a reconnect attempt is made (immediately when no
previous attempt is recorded, otherwise once more than 5 s have passed
since it); and any attempt made with a recorded previous attempt is
separated from it by at least 5 seconds. -/
theorem C4_stale_then_reconnect (now t a : ℚ) (att : Option ℚ)
    (ht : t ≠ 0) (ha : a ≠ 0) :
    (DATA_TIMEOUT_SECONDS < now - t → now - t < RECONNECT_AFTER_SECONDS →
      compute_data_status true (some t) now = .stale ∧
      should_attempt_reconnect true (some t) att now = false) ∧
    (RECONNECT_AFTER_SECONDS < now - t →
      should_attempt_reconnect true (some t) none now = true) ∧
    (RECONNECT_AFTER_SECONDS < now - t → 5 < now - a →
      should_attempt_reconnect true (some t) (some a) now = true) ∧
    (should_attempt_reconnect true (some t) (some a) now = true → 5 ≤ now - a) := by
  have htr : truthyOpt (some t) = true := by simp [truthyOpt, ht]
  have har : truthyOpt (some a) = true := by simp [truthyOpt, ha]
  have hq : qSub now t = now - t := qSub_eq now t
  have hqa : qSub now a = now - a := qSub_eq now a
  refine ⟨fun h1 h2 => ⟨?_, ?_⟩, fun h => ?_, fun h h5 => ?_, fun hfire => ?_⟩
  · unfold compute_data_status
    dsimp only
    rw [hq, if_pos h1]
    rfl
  · unfold should_attempt_reconnect
    rw [htr]
    simp only [Option.getD_some, hq]
    have hnot : ¬ (RECONNECT_AFTER_SECONDS < now - t) := not_lt.mpr (le_of_lt h2)
    simp [hnot]
  · unfold should_attempt_reconnect
    rw [htr]
    simp only [Option.getD_some, hq]
    simp [h, truthyOpt]
  · unfold should_attempt_reconnect
    rw [htr, har]
    simp only [Option.getD_some, hq, hqa]
    simp [h, h5]
  · unfold should_attempt_reconnect at hfire
    rw [htr, har] at hfire
    simp only [Option.getD_some, hqa] at hfire
    split at hfire
    · simp only [Bool.not_true, Bool.false_or, decide_eq_true_eq] at hfire
      exact le_of_lt hfire
    · exact absurd hfire (by simp)

theorem C4_witness :
    ((DATA_TIMEOUT_SECONDS < (100 : ℚ) - 1 → (100 : ℚ) - 1 < RECONNECT_AFTER_SECONDS →
      compute_data_status true (some 1) 100 = .stale ∧
      should_attempt_reconnect true (some 1) (some 2) 100 = false) ∧
    (RECONNECT_AFTER_SECONDS < (100 : ℚ) - 1 →
      should_attempt_reconnect true (some 1) none 100 = true) ∧
    (RECONNECT_AFTER_SECONDS < (100 : ℚ) - 1 → 5 < (100 : ℚ) - 2 →
      should_attempt_reconnect true (some 1) (some 2) 100 = true) ∧
    (should_attempt_reconnect true (some 1) (some 2) 100 = true → 5 ≤ (100 : ℚ) - 2)) :=
  C4_stale_then_reconnect 100 1 2 (some 2) (by decide) (by decide)

/-- C5 as stated is false: the parser's accept/flag threshold is the
literal `20.0` hard-coded at the check site, not the configuration
constant `FLOW_MAX_REASONABLE = 50`: the line `"1000,30,1.5,OK"` carries
flow rate 30, not above the configured threshold, yet it is flagged
(while still being accepted). -/
theorem C5_counterexample :
    flaggedHighFlow 30 = true ∧ (30 : ℚ) ≤ FLOW_MAX_REASONABLE ∧
    (20 : ℚ) ≠ FLOW_MAX_REASONABLE ∧
    parse_data_line "1000,30,1.5,OK" = some ⟨1, 30, mkRat 15 10, "OK", 0, 0⟩ :=
  ⟨by decide, by decide, by decide, by decide⟩

/-- C5 (amended): a line whose flow rate exceeds the parser's flag
threshold is accepted — the reading is stored in the buffer while
recording — and only flagged with a warning; but that threshold is the
literal `20.0` hard-coded at the check site, not the configuration
constant `FLOW_MAX_REASONABLE` (which is 50 and differs from it). -/
theorem C5_high_flow_flagged_not_rejected (line : String) (parts : List (List Char))
    (t f v : ℚ) (s : String) (p4 p5 : ℤ)
    (hparts : pySplitComma line.data = parts)
    (hlen : 4 ≤ parts.length)
    (h0 : pyFloat (parts.getD 0 []) = some t)
    (h1 : pyFloat (parts.getD 1 []) = some f)
    (h2 : pyFloat (parts.getD 2 []) = some v)
    (hs : pyStatus (parts.getD 3 []) = s)
    (h4 : (if 4 < parts.length then pyInt (parts.getD 4 []) else some 0) = some p4)
    (h5 : (if 5 < parts.length then pyInt (parts.getD 5 []) else some 0) = some p5)
    (hhigh : 20 < f) :
    parse_data_line line = some ⟨t / 1000, f, v, s, p4, p5⟩ ∧
    flaggedHighFlow f = true ∧
    (∀ (st : MonState) (now : ℚ), st.is_recording = true →
      (process_data_line st now line).flow_rates = pushMax MAX_POINTS st.flow_rates f) ∧
    (∀ g : ℚ, flaggedHighFlow g = true ↔ 20 < g) ∧
    FLOW_MAX_REASONABLE = 50 ∧ (20 : ℚ) ≠ FLOW_MAX_REASONABLE := by
  have hf : 0 ≤ f := le_of_lt (lt_trans (by norm_num) hhigh)
  have hp : parse_data_line line = some ⟨divBy1000 t, f, v, s, p4, p5⟩ := by
    unfold parse_data_line
    rw [hparts]
    exact parse_fields_accepted parts t f v s p4 p5 hlen h0 h1 h2 hs h4 h5 hf
  rw [divBy1000_eq] at hp
  refine ⟨hp, by simp [flaggedHighFlow, hhigh], fun st now hrec => ?_,
    fun g => by simp [flaggedHighFlow], rfl, by decide⟩
  unfold process_data_line
  rw [hp]
  unfold apply_reading
  dsimp only
  rw [if_pos hrec]

theorem C5_witness :
    parse_data_line "1000,30,1.5,OK" =
      some ⟨(1000 : ℚ) / 1000, 30, mkRat 15 10, "OK", 0, 0⟩ ∧
    flaggedHighFlow 30 = true ∧
    (∀ (st : MonState) (now : ℚ), st.is_recording = true →
      (process_data_line st now "1000,30,1.5,OK").flow_rates =
        pushMax MAX_POINTS st.flow_rates 30) ∧
    (∀ g : ℚ, flaggedHighFlow g = true ↔ 20 < g) ∧
    FLOW_MAX_REASONABLE = 50 ∧ (20 : ℚ) ≠ FLOW_MAX_REASONABLE :=
  C5_high_flow_flagged_not_rejected "1000,30,1.5,OK"
    [['1', '0', '0', '0'], ['3', '0'], ['1', '.', '5'], ['O', 'K']]
    1000 30 (mkRat 15 10) "OK" 0 0 (by decide) (by decide) (by decide) (by decide)
    (by decide) (by decide) (by decide) (by decide) (by decide)

/-- C6 as stated is false for the GUI variant's ingestion loop
(`FlowMonitor._read_serial_data`): a single `serial.SerialException`
clears `is_connected` and terminates the loop — one transport error, not
five. -/
theorem C6_counterexample :
    guiStep ⟨true, true⟩ .serialError = ⟨false, false⟩ ∧
    (1 : ℕ) < MAX_CONSECUTIVE_ERRORS :=
  ⟨by decide, by decide⟩

/-- C6 (amended): the cross-platform ingestion loop
(`CrossPlatformFlowMonitor.read_serial_data`) signals connection lost —
and terminates — exactly when the trace reaches
`MAX_CONSECUTIVE_ERRORS = 5` transport errors since the last successful
non-empty read (a successful read resets the counter, an empty read
leaves it unchanged), and the loop itself never attempts to reopen the
device; the GUI variant's loop instead terminates on the first
`SerialException` (see the counterexample). -/
theorem C6_error_threshold (es : List SerialEvent) :
    ((cpRun es).signaledLost = true ↔ MAX_CONSECUTIVE_ERRORS ≤ maxErrStreak es) ∧
    ((cpRun es).running = true ↔ (cpRun es).signaledLost = false) ∧
    (cpRun es).reconnectAttempts = 0 ∧
    (maxErrStreak es < MAX_CONSECUTIVE_ERRORS →
      (cpRun es).running = true ∧ (cpRun es).consecutiveErrors = errStreak es) ∧
    (∀ (c : ℕ) (l : String), l.data.isEmpty = false →
      (cpStep ⟨c, true, false, 0⟩ (.lineRead l)).consecutiveErrors = 0) := by
  have hinv : cpInv (cpRun es) (streaksAux (0, 0) es) := by
    apply cpFold_inv
    exact ⟨le_refl 0, rfl, Or.inl ⟨by decide, rfl⟩⟩
  obtain ⟨hpt, hrc, ⟨hm, hs⟩ | ⟨hm, hrunf, hsig⟩⟩ := hinv
  · refine ⟨⟨fun hsig => ?_, fun hge => ?_⟩, ⟨fun _ => ?_, fun _ => ?_⟩, hrc,
      fun _ => ⟨?_, ?_⟩, fun c l hl => ?_⟩
    · rw [hs] at hsig
      exact absurd hsig (by simp)
    · exact absurd hge (by unfold maxErrStreak; omega)
    · rw [hs]
    · rw [hs]
    · rw [hs]
    · rw [hs]
      unfold errStreak
      rfl
    · rw [cpStep_run_lineRead]
      rw [if_neg (by simp [hl])]
  · refine ⟨⟨fun _ => ?_, fun _ => hsig⟩, ⟨fun hrun => ?_, fun hnot => ?_⟩, hrc,
      fun hlt => ?_, fun c l hl => ?_⟩
    · exact hm
    · rw [hrunf] at hrun
      exact absurd hrun (by simp)
    · rw [hsig] at hnot
      exact absurd hnot (by simp)
    · exact absurd hlt (by unfold maxErrStreak; omega)
    · rw [cpStep_run_lineRead]
      rw [if_neg (by simp [hl])]

theorem C6_witness :
    ((cpRun [.serialError, .serialError, .serialError, .serialError,
        .serialError]).signaledLost = true ↔
      MAX_CONSECUTIVE_ERRORS ≤ maxErrStreak
        [.serialError, .serialError, .serialError, .serialError, .serialError]) ∧
    ((cpRun [.serialError, .serialError, .serialError, .serialError,
        .serialError]).running = true ↔
      (cpRun [.serialError, .serialError, .serialError, .serialError,
        .serialError]).signaledLost = false) ∧
    (cpRun [.serialError, .serialError, .serialError, .serialError,
      .serialError]).reconnectAttempts = 0 ∧
    (maxErrStreak [.serialError, .serialError, .serialError, .serialError,
        .serialError] < MAX_CONSECUTIVE_ERRORS →
      (cpRun [.serialError, .serialError, .serialError, .serialError,
        .serialError]).running = true ∧
      (cpRun [.serialError, .serialError, .serialError, .serialError,
        .serialError]).consecutiveErrors =
        errStreak [.serialError, .serialError, .serialError, .serialError,
          .serialError]) ∧
    (∀ (c : ℕ) (l : String), l.data.isEmpty = false →
      (cpStep ⟨c, true, false, 0⟩ (.lineRead l)).consecutiveErrors = 0) :=
  C6_error_threshold [.serialError, .serialError, .serialError, .serialError, .serialError]

/-- C7: export on a snapshot with at most one sample (only the synthetic
zero reading) reports nothing to export and writes no file; otherwise it
writes exactly the fixed header `Time(s),FlowRate(L/min),TotalVolume(L),Status`
followed by one row per reading: the time relative to the first sample
at 3 decimals, the flow rate at 3 decimals, the cumulative volume at 4
decimals, and the status. -/
theorem C7_export_format (times flows volumes : List ℚ) (statuses : List String)
    (sensor : String) (t0 : ℚ) (rest : List ℚ)
    (h0 : times = t0 :: rest) (h1 : 1 < times.length) :
    save_data times flows volumes statuses sensor =
      some ("Time(s),FlowRate(L/min),TotalVolume(L),Status" ::
        (List.range times.length).map (fun i =>
          fmtFixed 3 (times.getD i 0 - t0) ++ "," ++ fmtFixed 3 (flows.getD i 0) ++ "," ++
          fmtFixed 4 (volumes.getD i 0) ++ "," ++
          (if i < statuses.length then statuses.getD i "" else sensor))) ∧
    (csvRows times flows volumes statuses sensor).length = times.length ∧
    (∀ (ts fs vs : List ℚ) (ss : List String) (sen : String),
      ts.length ≤ 1 → save_data ts fs vs ss sen = none) := by
  subst h0
  refine ⟨?_, ?_, fun ts fs vs ss sen hle => ?_⟩
  · unfold save_data
    rw [if_neg (not_le.mpr h1)]
    unfold csvHeader
    simp only [csvRows, csvRow, qSub_eq]
  · simp only [csvRows, List.length_map, List.length_range]
  · unfold save_data
    rw [if_pos hle]

theorem C7_witness :
    save_data [0, 1] [1, 2] [3, 4] ["A", "B"] "S" =
      some ("Time(s),FlowRate(L/min),TotalVolume(L),Status" ::
        (List.range ([(0 : ℚ), 1].length)).map (fun i =>
          fmtFixed 3 (([(0 : ℚ), 1].getD i 0) - 0) ++ "," ++
          fmtFixed 3 ([(1 : ℚ), 2].getD i 0) ++ "," ++
          fmtFixed 4 ([(3 : ℚ), 4].getD i 0) ++ "," ++
          (if i < (["A", "B"] : List String).length
            then (["A", "B"] : List String).getD i "" else "S"))) ∧
    (csvRows [0, 1] [1, 2] [3, 4] ["A", "B"] "S").length = [(0 : ℚ), 1].length ∧
    (∀ (ts fs vs : List ℚ) (ss : List String) (sen : String),
      ts.length ≤ 1 → save_data ts fs vs ss sen = none) :=
  C7_export_format [0, 1] [1, 2] [3, 4] ["A", "B"] "S" 0 [1] rfl (by decide)

/-- C8: after construction and after every user reset the buffer is not
empty — it holds exactly one synthetic zero reading (timestamp 0, flow
rate 0, cumulative volume 0, status "NO DATA") — and export treats a
buffer of length at most 1 as having nothing to export. -/
theorem C8_reset_leaves_sentinel (st : MonState) (times flows volumes : List ℚ)
    (statuses : List String) (sensor : String) (h : times.length ≤ 1) :
    (reset_data st).timestamps = [0] ∧ (reset_data st).flow_rates = [0] ∧
    (reset_data st).total_volumes = [0] ∧
    (reset_data st).status_history = ["NO DATA"] ∧
    initState.timestamps = [0] ∧ initState.flow_rates = [0] ∧
    initState.total_volumes = [0] ∧ initState.status_history = ["NO DATA"] ∧
    DEFAULT_SENSOR_STATUS = "NO DATA" ∧
    save_data times flows volumes statuses sensor = none := by
  refine ⟨rfl, rfl, rfl, rfl, rfl, rfl, rfl, rfl, rfl, ?_⟩
  unfold save_data
  rw [if_pos h]

theorem C8_witness :
    (reset_data initState).timestamps = [0] ∧ (reset_data initState).flow_rates = [0] ∧
    (reset_data initState).total_volumes = [0] ∧
    (reset_data initState).status_history = ["NO DATA"] ∧
    initState.timestamps = [0] ∧ initState.flow_rates = [0] ∧
    initState.total_volumes = [0] ∧ initState.status_history = ["NO DATA"] ∧
    DEFAULT_SENSOR_STATUS = "NO DATA" ∧
    save_data [0] [0] [0] ["NO DATA"] "NO DATA" = none :=
  C8_reset_leaves_sentinel initState [0] [0] [0] ["NO DATA"] "NO DATA" (by decide)
